import Mathlib

/-!
Verification development for the `blessed` terminal library
(`blessed/terminal.py`).  Each Python function used by the claims is
shallowly embedded as an executable Lean definition; theorems about the
definitions settle the claims.  Machine values are modelled with
`Nat`/`Int`, decoded keyboard text as `List Char`, fallible paths with
explicit result types.
-/

namespace Blessed

/-! ## Keyboard buffer (`Terminal.inkey`, terminal.py lines 595-630)

The keyboard buffer `self._keyboard_buf` is a `collections.deque` of
decoded codepoints.  We model the deque as a `List Char` whose head is the
leftmost element.  `deque.pop()` removes the rightmost element;
`deque.extendleft(xs)` traverses `xs` left to right, appending each
element on the left (so the run ends up reversed at the front). -/

/-- Python `deque.appendleft`: push one element on the left of the deque. -/
def appendleft (c : Char) (buf : List Char) : List Char :=
  c :: buf

/-- Python `deque.extendleft(xs)`: traverse `xs` left to right and
`appendleft` each element, as `inkey` does at terminal.py line 629 with the
codepoints left over after resolution. -/
def extendleft (xs : List Char) (buf : List Char) : List Char :=
  xs.foldl (fun b c => appendleft c b) buf

/-- The drain loop opening `inkey` (terminal.py lines 598-600):
`ucs = u''` then `while self._keyboard_buf: ucs += self._keyboard_buf.pop()`.
`pop` removes the rightmost element, which is appended to the accumulator. -/
def drainLoop (ucs : List Char) (buf : List Char) : List Char :=
  match buf with
  | [] => ucs
  | c :: rest => drainLoop (ucs ++ [(c :: rest).getLast (by simp)]) (c :: rest).dropLast
termination_by buf.length
decreasing_by simp [List.length_dropLast]

/-- Text considered by one `inkey` call before resolution: the drained
keyboard buffer followed by the newly decoded input (terminal.py
lines 598-604). -/
def inkeyConsidered (buf avail : List Char) : List Char :=
  drainLoop [] buf ++ avail

/-- Keyboard-buffer state left behind by one `inkey` call that resolved a
keystroke consuming the first `n` codepoints of the considered text: the
drain loop empties the deque, and line 629 runs
`self._keyboard_buf.extendleft(ucs[len(ks):])`. -/
def inkeyBufferAfter (buf avail : List Char) (n : Nat) : List Char :=
  extendleft ((inkeyConsidered buf avail).drop n) []

theorem extendleft_eq_reverse_append (xs : List Char) :
    ∀ buf, extendleft xs buf = xs.reverse ++ buf := by
  induction xs with
  | nil => intro buf; simp [extendleft]
  | cons c rest ih =>
    intro buf
    have hstep : extendleft (c :: rest) buf = extendleft rest (c :: buf) := rfl
    rw [hstep, ih]
    simp

theorem drainLoop_eq (ucs buf : List Char) :
    drainLoop ucs buf = ucs ++ buf.reverse := by
  induction ucs, buf using drainLoop.induct with
  | case1 ucs => simp [drainLoop]
  | case2 ucs c rest ih =>
    have h : (c :: rest).dropLast ++ [(c :: rest).getLast (by simp)] = c :: rest :=
      List.dropLast_append_getLast (by simp)
    rw [drainLoop, ih]
    conv_rhs => rw [← h]
    simp

/-- C1: across two consecutive `inkey` calls, the codepoints decoded but not
consumed by the first call's keystroke are retained in order and prepended
to the text the second call considers; splitting the first call's
considered text at the consumed prefix loses and duplicates nothing. -/
theorem inkey_carry_over (buf avail nextAvail : List Char) (n : Nat) :
    inkeyConsidered (inkeyBufferAfter buf avail n) nextAvail
      = (inkeyConsidered buf avail).drop n ++ nextAvail
    ∧ (inkeyConsidered buf avail).take n ++ (inkeyConsidered buf avail).drop n
      = inkeyConsidered buf avail := by
  constructor
  · rw [inkeyBufferAfter, inkeyConsidered, extendleft_eq_reverse_append,
      drainLoop_eq]
    simp
  · exact List.take_append_drop n (inkeyConsidered buf avail)

/-! ## Process-wide terminal kind (`Terminal.__init__`, terminal.py
lines 100-122, and the `_CUR_TERM` global at line 651)

After a successful `curses.setupterm`, `__init__` runs
```
if _CUR_TERM is None or self._kind == _CUR_TERM:
    _CUR_TERM = self._kind
else:
    warnings.warn(...)
```
We model `_CUR_TERM` as an `Option String` and return alongside it whether
the warning was emitted. -/

/-- One `_CUR_TERM` update step (terminal.py lines 113-122).  Returns the
new `_CUR_TERM` value and whether the mismatch warning fired. -/
def curTermStep (cur : Option String) (kind : String) : Option String × Bool :=
  if cur = none ∨ some kind = cur then (some kind, false) else (cur, true)

/-- The `_CUR_TERM` bookkeeping only runs in the `does_styling` branch and
only when `setupterm` succeeded (terminal.py lines 100-113). -/
def initCurTerm (doesStyling setupOk : Bool) (cur : Option String) (kind : String) :
    Option String × Bool :=
  if doesStyling ∧ setupOk then curTermStep cur kind else (cur, false)

/-- C7: the process-wide kind is a singleton.  The first styling Terminal
records its kind silently; a later styling Terminal of the same kind (or
when none was recorded) is silent; a different kind warns and the recorded
kind is kept; any sequence of styling constructions leaves the first
recorded kind in place. -/
theorem cur_term_kind_singleton (k k' : String) (ks : List String) :
    initCurTerm true true none k = (some k, false)
    ∧ initCurTerm true true (some k) k = (some k, false)
    ∧ initCurTerm true true (some k) k' = (some k, !(k' == k))
    ∧ ks.foldl (fun cur kd => (initCurTerm true true cur kd).1) (some k) = some k := by
  refine ⟨by simp [initCurTerm, curTermStep], by simp [initCurTerm, curTermStep], ?_, ?_⟩
  · by_cases h : k' = k
    · subst h; simp [initCurTerm, curTermStep]
    · simp [initCurTerm, curTermStep, h, Ne.symm h]
  · induction ks with
    | nil => rfl
    | cons kd rest ih =>
      simp only [List.foldl_cons]
      have hstep : (initCurTerm true true (some k) kd).1 = some k := by
        by_cases h : kd = k
        · subst h; simp [initCurTerm, curTermStep]
        · simp [initCurTerm, curTermStep, h, Ne.symm h]
      rw [hstep, ih]

/-! ## `Terminal.number_of_colors` (terminal.py lines 371-394)

The body is `max(0, self.does_styling and curses.tigetnum('colors') or -1)`.
Python `and`/`or` are truthiness-based: `False and x` is `False`,
`False or -1` is `-1`, and for an `int` left operand `n or -1` is `n` when
`n != 0` and `-1` when `n == 0`.  `tigetnum('colors')` returns `-1` when
the terminal has no color support and `-2` when the capability is absent. -/

/-- `number_of_colors`, with the `tigetnum('colors')` collaborator value
passed in.  The nested `if`s spell out the Python `and`/`or` chain. -/
def numberOfColors (doesStyling : Bool) (tigetnumColors : Int) : Int :=
  max 0 (if doesStyling then
           (if tigetnumColors ≠ 0 then tigetnumColors else -1)
         else -1)

/-- C9: `number_of_colors` is never negative; it is 0 whenever styling is
off or the numeric capability reports no color support (negative value,
including the -2 "absent capability" result). -/
theorem number_of_colors_nonneg (ds : Bool) (n : Int) :
    0 ≤ numberOfColors ds n
    ∧ numberOfColors false n = 0
    ∧ (n < 0 → numberOfColors ds n = 0) := by
  refine ⟨le_max_left 0 _, by simp [numberOfColors], fun hn => ?_⟩
  unfold numberOfColors
  rcases ds with _ | _
  · simp
  · have hne : n ≠ 0 := by omega
    simp only [if_pos hne, if_pos trivial]
    omega

/-- Witness for C9 at a concrete input: styling on, capability absent
(`tigetnum` returns -2) gives 0 colors. -/
theorem number_of_colors_nonneg_witness :
    (-2 : Int) < 0 ∧ numberOfColors true (-2) = 0 :=
  ⟨by decide, (number_of_colors_nonneg true (-2)).2.2 (by decide)⟩

/-! ## `Terminal.location` (terminal.py lines 279-311)

`location(x=None, y=None)` is a context manager: it writes the `save`
capability, then exactly one movement capability chosen by which of `x`,
`y` are not `None` (`move(y, x)`, `move_x(x)`, `move_y(y)`, or nothing),
runs the body inside `try:`, and writes `restore` in the `finally:` block,
so `restore` is written whether or not the body raises.  We model the
stream as the ordered list of writes; capability strings are abstract
constructors since their rendering lives in the `formatters` module. -/

/-- One write made to the terminal stream while `location` is active. -/
inductive TermWrite where
  | save : TermWrite
  | restore : TermWrite
  | move (y x : Int) : TermWrite
  | moveX (x : Int) : TermWrite
  | moveY (y : Int) : TermWrite
  | bodyWrite (n : Nat) : TermWrite
deriving DecidableEq, Repr

/-- The movement writes performed on entry by `location` (terminal.py
lines 300-306): the `if x is not None and y is not None / elif / elif`
chain, which tests only for `None`, never for zero. -/
def locationEntryMoves (x y : Option Int) : List TermWrite :=
  match x, y with
  | some xv, some yv => [TermWrite.move yv xv]
  | some xv, none => [TermWrite.moveX xv]
  | none, some yv => [TermWrite.moveY yv]
  | none, none => []

/-- Full ordered trace of stream writes for one use of `location`:
`save`, the movement writes, the body's writes (cut short where it raised,
when it did), then `restore` from the `finally:` block on every exit path.
The returned Bool is whether the body's exception propagates to the
caller. -/
def locationTrace (x y : Option Int) (bodyWrites : List TermWrite)
    (bodyRaises : Bool) : List TermWrite × Bool :=
  ([TermWrite.save] ++ locationEntryMoves x y ++ bodyWrites
    ++ [TermWrite.restore], bodyRaises)

/-- C10: `location` treats 0 as a valid coordinate, not as absence — with
x=0 and/or y=0 the movement write still occurs between `save` and
`restore`; movement is omitted only when a coordinate is `None`; and the
`restore` write is the final write on every exit path, including when the
body raises. -/
theorem location_zero_and_restore (body : List TermWrite) (raises : Bool) :
    (locationTrace (some 0) (some 0) body raises).1
      = [TermWrite.save, TermWrite.move 0 0] ++ body ++ [TermWrite.restore]
    ∧ (locationTrace (some 0) none body raises).1
      = [TermWrite.save, TermWrite.moveX 0] ++ body ++ [TermWrite.restore]
    ∧ (locationTrace none (some 0) body raises).1
      = [TermWrite.save, TermWrite.moveY 0] ++ body ++ [TermWrite.restore]
    ∧ (locationTrace none none body raises).1
      = [TermWrite.save] ++ body ++ [TermWrite.restore]
    ∧ (∀ x y : Option Int,
        ((locationTrace x y body raises).1.getLast? = some TermWrite.restore
          ∧ (locationTrace x y body raises).2 = raises)) := by
  refine ⟨rfl, rfl, rfl, rfl, fun x y => ⟨?_, rfl⟩⟩
  show (([TermWrite.save] ++ locationEntryMoves x y ++ body)
    ++ [TermWrite.restore]).getLast? = some TermWrite.restore
  rw [List.getLast?_concat]

/-! ## Terminal size (`Terminal._winsize`, `_height_and_width`, `height`,
`width`; terminal.py lines 221-277)

`_height_and_width` tries, in order, the init descriptor (possibly `None`,
then skipped) and `sys.__stdout__`; each attempt calls `_winsize`, whose
`ioctl` may raise `IOError`, which is caught and the next candidate tried.
If nothing succeeds it falls back to the `LINES` and `COLUMNS` environment
variables with defaults 25 and 80.  We model an `_winsize` attempt as an
`Option WINSZ` (`none` models the caught `IOError`) and the environment's
numeric variables as `Option Nat`. -/

/-- The `WINSZ` namedtuple (terminal.py lines 653-658).  `ws_xpixel` and
`ws_ypixel` are `Option` because the environment fallback fills them with
`None`; `ws_row` and `ws_col` are integers on both paths. -/
structure WINSZ where
  ws_row : Int
  ws_col : Int
  ws_xpixel : Option Int
  ws_ypixel : Option Int
deriving DecidableEq, Repr

/-- Numeric environment: `os.getenv('LINES')` and `os.getenv('COLUMNS')`,
absent or a number. -/
structure SizeEnv where
  lines : Option Nat
  columns : Option Nat

/-- The environment fallback of `_height_and_width` (terminal.py
lines 274-277): `LINES` defaulting to 25, `COLUMNS` defaulting to 80,
pixel sizes `None`. -/
def sizeFallback (env : SizeEnv) : WINSZ :=
  { ws_row := (env.lines.getD 25 : Nat)
    ws_col := (env.columns.getD 80 : Nat)
    ws_xpixel := none
    ws_ypixel := none }

/-- The candidate loop of `_height_and_width` (terminal.py lines 267-272):
skip a `None` descriptor, return the first successful `_winsize`, treat a
raised `IOError` (`none`) as "try the next candidate". -/
def heightAndWidthLoop (winsize : Nat → Option WINSZ) (env : SizeEnv) :
    List (Option Nat) → WINSZ
  | [] => sizeFallback env
  | fd? :: rest =>
    match fd? with
    | none => heightAndWidthLoop winsize env rest
    | some fd =>
      match winsize fd with
      | some ws => ws
      | none => heightAndWidthLoop winsize env rest

/-- `_height_and_width` over its two candidates: `self._init_descriptor`
and `sys.__stdout__` (whose descriptor always exists). -/
def heightAndWidth (winsize : Nat → Option WINSZ) (env : SizeEnv)
    (initDescriptor : Option Nat) (stdoutFd : Nat) : WINSZ :=
  heightAndWidthLoop winsize env [initDescriptor, some stdoutFd]

/-- The `height` property (terminal.py line 237). -/
def terminalHeight (winsize : Nat → Option WINSZ) (env : SizeEnv)
    (initDescriptor : Option Nat) (stdoutFd : Nat) : Int :=
  (heightAndWidth winsize env initDescriptor stdoutFd).ws_row

/-- The `width` property (terminal.py line 247). -/
def terminalWidth (winsize : Nat → Option WINSZ) (env : SizeEnv)
    (initDescriptor : Option Nat) (stdoutFd : Nat) : Int :=
  (heightAndWidth winsize env initDescriptor stdoutFd).ws_col

/-- C8: `height` and `width` are total integer-valued functions — every
`IOError` is absorbed by the candidate loop, and when no window-size query
succeeds they take the `LINES`/`COLUMNS` environment values, defaulting to
25 rows and 80 columns; `None` is never returned. -/
theorem height_width_total_fallback (winsize : Nat → Option WINSZ)
    (env : SizeEnv) (initDescriptor : Option Nat) (stdoutFd : Nat)
    (hfail : ∀ fd, winsize fd = none) :
    terminalHeight winsize env initDescriptor stdoutFd = (env.lines.getD 25 : Nat)
    ∧ terminalWidth winsize env initDescriptor stdoutFd = (env.columns.getD 80 : Nat) := by
  have hloop : heightAndWidth winsize env initDescriptor stdoutFd = sizeFallback env := by
    unfold heightAndWidth heightAndWidthLoop
    rcases initDescriptor with _ | fd
    · simp [hfail stdoutFd, heightAndWidthLoop]
    · simp [hfail fd, hfail stdoutFd, heightAndWidthLoop]
  exact ⟨by rw [terminalHeight, hloop]; rfl, by rw [terminalWidth, hloop]; rfl⟩

/-- Witness for C8 at a concrete input: every query raising `IOError` and
an empty environment yields the 25 by 80 default. -/
theorem height_width_total_fallback_witness :
    (∀ fd : Nat, (fun _ : Nat => (none : Option WINSZ)) fd = none)
    ∧ terminalHeight (fun _ => none) ⟨none, none⟩ (some 1) 1 = 25
    ∧ terminalWidth (fun _ => none) ⟨none, none⟩ (some 1) 1 = 80 := by
  refine ⟨fun _ => rfl, ?_⟩
  have h := height_width_total_fallback (fun _ => none) ⟨none, none⟩ (some 1) 1
    (fun _ => rfl)
  exact ⟨h.1, h.2⟩

/-! ## Attribute resolution (`Terminal.__getattr__`, terminal.py
lines 180-203) and `Terminal.kbhit` (lines 476-494)

`__getattr__` returns `formatters.NullCallableString()` whenever
`does_styling` is false, and otherwise delegates to
`formatters.resolve_attribute`.  The `formatters` module is not under
`src/`, so formatting values are modelled from the spec; the registry
lookup is abstracted as a function parameter.

`kbhit` opens with `if self.keyboard_fd is None: return False`, but no
code in `Terminal` ever assigns `keyboard_fd` — `__init__` assigns
`stream_kb` (lines 76-80) — so the lookup falls through to `__getattr__`,
which never produces Python `None`.  The guard therefore never fires, and
for a non-interactive terminal (`stream_kb is None`) the subsequent
`select.select([self.stream_kb], ...)` receives `[None]` and raises
`TypeError`. -/

/-- Modelled from the spec: a formatting value (spec §3 "Formatting
Value", `formatters` module absent from `src/`): invoking it on text wraps
the text between the value's capability sequence and a reset sequence. -/
structure FormattingValue where
  seq : List Char
  reset : List Char
deriving DecidableEq, Repr

/-- Modelled from the spec: `formatters.NullCallableString()`, the inert
identity value — empty capability sequence and empty reset. -/
def nullCallableString : FormattingValue :=
  { seq := [], reset := [] }

/-- Modelled from the spec: invoking a formatting value on text arguments
concatenates them between the capability sequence and the reset (spec §3:
the null value thus degenerates to plain concatenation). -/
def callFormatting (v : FormattingValue) (args : List (List Char)) : List Char :=
  v.seq ++ args.flatten ++ v.reset

/-- `Terminal.__getattr__` (terminal.py lines 180-203), with
`formatters.resolve_attribute` abstracted as `registry`.  The result is an
`Option` because the `kbhit` guard compares it against Python `None`;
neither branch ever produces `none`. -/
def terminalGetattr (doesStyling : Bool) (registry : String → FormattingValue)
    (attr : String) : Option FormattingValue :=
  if !doesStyling then some nullCallableString
  else some (registry attr)

/-- Outcome of a `kbhit` call. -/
inductive KbhitOutcome where
  | returns (b : Bool)
  | raisesTypeError
deriving DecidableEq, Repr

/-- `Terminal.kbhit` (terminal.py lines 476-494).  `streamKb` is the
keyboard descriptor set by `__init__` (`none` when a `stream` argument was
given); `selectReady` abstracts whether `select.select` reports the
descriptor readable within `timeout`.  The guard tests the *undefined*
attribute `keyboard_fd`, hence goes through `terminalGetattr`; when it
does not return Python `None`, execution reaches
`select.select([self.stream_kb], ...)`, which raises `TypeError` for a
`None` entry. -/
def kbhit (doesStyling : Bool) (streamKb : Option Nat)
    (registry : String → FormattingValue) (selectReady : Bool)
    (timeout : Option Nat) : KbhitOutcome :=
  if terminalGetattr doesStyling registry "keyboard_fd" = none then
    KbhitOutcome.returns false
  else
    match streamKb with
    | none => KbhitOutcome.raisesTypeError
    | some _ => KbhitOutcome.returns selectReady

/-- C2 (refuted): on a non-interactive Terminal (`stream_kb is None`,
here with styling off), `kbhit` does not return False — the `keyboard_fd`
guard resolves through `__getattr__` to a `NullCallableString`, which is
not `None`, and `select.select([None], ...)` raises `TypeError`, for every
timeout. -/
theorem kbhit_non_interactive_raises (registry : String → FormattingValue)
    (selectReady : Bool) (timeout : Option Nat) :
    terminalGetattr false registry "keyboard_fd" = some nullCallableString
    ∧ kbhit false none registry selectReady timeout = KbhitOutcome.raisesTypeError :=
  ⟨rfl, rfl⟩

/-- C6: with `does_styling` false, attribute resolution short-circuits to
the inert `NullCallableString` — identically for every registry, which is
never consulted — and invoking that value on text arguments returns
exactly their concatenation, with no sequences injected. -/
theorem getattr_no_styling_null_identity (registry registry2 : String → FormattingValue)
    (attr : String) (args : List (List Char)) :
    terminalGetattr false registry attr = some nullCallableString
    ∧ terminalGetattr false registry attr = terminalGetattr false registry2 attr
    ∧ callFormatting nullCallableString args = args.flatten := by
  refine ⟨rfl, rfl, ?_⟩
  simp [callFormatting, nullCallableString]

/-! ## `Terminal.wrap` (terminal.py lines 446-474)

`wrap` asserts that the `break_long_words` keyword is not passed truthy
(lines 462-464), then iterates `text.splitlines()` and, for each line
whose `line.strip()` is non-empty, extends the result with
`sequences.SequenceTextWrapper(width=width, term=self, **kwargs).wrap(text)`
— note the argument is `text`, the whole input, not `line` — and with one
empty string for a blank line.  The `sequences` module is not under
`src/`, so the inner wrapper is modelled from the spec. -/

/-- Python `str.splitlines()` restricted to the LF boundary: split on
newline characters, with no trailing empty line for a trailing newline and
an empty list for the empty string. -/
def splitlines : List Char → List (List Char)
  | [] => []
  | c :: rest =>
    if c = '\n' then [] :: splitlines rest
    else
      match splitlines rest with
      | [] => [[c]]
      | l :: ls => (c :: l) :: ls

/-- Python `line.strip()` truthiness test used at terminal.py line 472:
the stripped line is empty exactly when every character is whitespace. -/
def stripIsEmpty (l : List Char) : Bool :=
  l.all (fun c => c.isWhitespace)

/-- Helper splitting text into maximal whitespace-free words, the word
source for the modelled wrapper (the accumulator holds the current word
reversed). -/
def splitWordsAux (cur : List Char) : List Char → List (List Char)
  | [] => if cur.isEmpty then [] else [cur.reverse]
  | c :: rest =>
    if c.isWhitespace then
      if cur.isEmpty then splitWordsAux [] rest
      else cur.reverse :: splitWordsAux [] rest
    else splitWordsAux (c :: cur) rest

/-- Whitespace-separated words of a text (newlines count as whitespace,
as after `textwrap`'s whitespace replacement). -/
def splitWords (s : List Char) : List (List Char) :=
  splitWordsAux [] s

/-- Greedy line packing: extend the current line with the next word when
the joined candidate still fits in `width` printable columns, else emit
the line and start a new one with the word. -/
def greedyPackAux (width : Nat) (cur : List Char) : List (List Char) → List (List Char)
  | [] => [cur]
  | w :: ws =>
    if cur.length + 1 + w.length ≤ width then
      greedyPackAux width (cur ++ ' ' :: w) ws
    else
      cur :: greedyPackAux width w ws

/-- Modelled from the spec: `sequences.SequenceTextWrapper(...).wrap`
(module `sequences`, missing from `src/`) — a `textwrap.TextWrapper`
subclass that measures candidate lines by printable width (spec §4.3).
`textwrap` first replaces every whitespace character, newlines included,
by a space, then packs whitespace-separated words greedily.  The claims
exercise it only on sequence-free text, where printable width is the
character count; whitespace-only input wraps to no lines. -/
def textWrapModel (width : Nat) (text : List Char) : List (List Char) :=
  match splitWords text with
  | [] => []
  | w :: ws => greedyPackAux width w ws

/-- `Terminal.wrap` (terminal.py lines 466-474) with an explicit `width`.
The fold body is the source loop verbatim: for each `line` of
`text.splitlines()`, extend with the inner wrap of **`text`** (the whole
input, exactly as written at line 471) when `line.strip()` is truthy,
else with one empty string. -/
def terminalWrap (width : Nat) (text : List Char) : List (List Char) :=
  (splitlines text).foldl
    (fun lines line =>
      lines ++ (if !(stripIsEmpty line) then textWrapModel width text else [[]]))
    []

/-- The wrapping behaviour the claim describes (spec §4.3): each line of
the split text is wrapped independently — the inner wrapper receives
`line`, not `text`. -/
def specWrapPerLine (width : Nat) (text : List Char) : List (List Char) :=
  (splitlines text).foldl
    (fun lines line =>
      lines ++ (if !(stripIsEmpty line) then textWrapModel width line else [[]]))
    []

/-- C3 (refuted): the source wraps the whole `text` once per non-blank
line instead of wrapping each line.  At input "a\nb" with width 10 the
code produces ["a b", "a b"], per-line wrapping produces ["a", "b"], and
the claim's equality with the concatenation of the separately wrapped
lines fails. -/
theorem wrap_wraps_whole_text_per_line :
    terminalWrap 10 ("a\nb".toList) = ["a b".toList, "a b".toList]
    ∧ specWrapPerLine 10 ("a\nb".toList) = ["a".toList, "b".toList]
    ∧ terminalWrap 10 ("a\nb".toList)
        ≠ terminalWrap 10 ("a".toList) ++ terminalWrap 10 ("b".toList) := by
  refine ⟨by decide, by decide, by decide⟩

/-- AssertionError-or-result outcome of a `wrap` call. -/
inductive WrapOutcome where
  | ok (lines : List (List Char))
  | assertionError
deriving DecidableEq, Repr

/-- `Terminal.wrap` including the keyword gate of terminal.py
lines 462-464: `assert (_blw not in kwargs or not kwargs[_blw])` raises
`AssertionError` exactly when `break_long_words` is passed truthy, before
any wrapping is attempted; otherwise wrapping proceeds.  `none` models an
absent keyword. -/
def terminalWrapChecked (breakLongWords : Option Bool) (width : Nat)
    (text : List Char) : WrapOutcome :=
  if breakLongWords.getD false then WrapOutcome.assertionError
  else WrapOutcome.ok (terminalWrap width text)

/-- C4: passing `break_long_words` truthy makes `wrap` fail with
`AssertionError` before any wrapping; leaving it absent or false lets
wrapping proceed normally. -/
theorem wrap_rejects_break_long_words (width : Nat) (text : List Char) :
    terminalWrapChecked (some true) width text = WrapOutcome.assertionError
    ∧ terminalWrapChecked none width text = WrapOutcome.ok (terminalWrap width text)
    ∧ terminalWrapChecked (some false) width text
        = WrapOutcome.ok (terminalWrap width text) :=
  ⟨rfl, rfl, rfl⟩

/-! ## Escape disambiguation in `inkey` (terminal.py lines 616-626)

After resolving a keystroke, `inkey` runs
```
if ks.code is self.KEY_ESCAPE:
    esctime = time.time()
    while (ks.code is self.KEY_ESCAPE and
           self.kbhit(_timeleft(esctime, esc_delay))):
        ucs += _decode_next()
        ks = resolve(text=ucs)
```
We embed it on a discrete clock.  Pending keyboard bytes are events with
arrival times; `kbhit(t)` blocks until the next event arrives or `t` time
units elapse, advancing the clock accordingly; a loop iteration consumes
the event it saw, appends its codepoint (the incremental decoder is
abstracted to one codepoint per byte) and re-resolves.
`keyboard.resolve_sequence` is abstracted as the `resolve` parameter. -/

/-- One pending keyboard byte: its arrival time and decoded codepoint. -/
structure InputEvent where
  time : Nat
  ch : Char
deriving DecidableEq, Repr

/-- Result of `keyboard.resolve_sequence`: the consumed text and the key
code of the resolved keystroke. -/
structure Keystroke where
  text : List Char
  code : Option Int
deriving DecidableEq, Repr

/-- `_timeleft(stime, timeout)` (terminal.py lines 575-584) for a numeric
timeout on the discrete clock: `max(0, timeout - (now - stime))`, the
clamping given by truncated subtraction. -/
def timeleft (stime timeout now : Nat) : Nat :=
  timeout - (now - stime)

/-- The escape-disambiguation loop (terminal.py lines 621-626).  Arguments
after the fixed parameters: pending events, current clock, accumulated
text `ucs`, current keystroke `ks`.  Returns the final keystroke, the
clock at loop exit, and the events still pending. -/
def escLoop (resolve : List Char → Keystroke) (keyEscape : Int)
    (escDelay esctime : Nat) :
    List InputEvent → Nat → List Char → Keystroke →
      Keystroke × Nat × List InputEvent
  | events, clock, ucs, ks =>
    if ks.code = some keyEscape then
      match events with
      | [] => (ks, clock + timeleft esctime escDelay clock, [])
      | e :: rest =>
        if e.time ≤ clock + timeleft esctime escDelay clock then
          escLoop resolve keyEscape escDelay esctime rest (max clock e.time)
            (ucs ++ [e.ch]) (resolve (ucs ++ [e.ch]))
        else (ks, clock + timeleft esctime escDelay clock, e :: rest)
    else (ks, clock, events)

theorem escLoop_clock_bound (resolve : List Char → Keystroke)
    (keyEscape : Int) (escDelay esctime : Nat) (events : List InputEvent) :
    ∀ (clock : Nat) (ucs : List Char) (ks : Keystroke),
      clock ≤ esctime + escDelay →
      (escLoop resolve keyEscape escDelay esctime events clock ucs ks).2.1
        ≤ esctime + escDelay := by
  induction events with
  | nil =>
    intro clock ucs ks h2
    by_cases hk : ks.code = some keyEscape
    · simp only [escLoop, hk, if_true, timeleft]
      omega
    · simp only [escLoop, hk, if_false]
      exact h2
  | cons e rest ih =>
    intro clock ucs ks h2
    by_cases hk : ks.code = some keyEscape
    · by_cases he : e.time ≤ clock + timeleft esctime escDelay clock
      · simp only [escLoop, hk, if_true, he]
        exact ih (max clock e.time) (ucs ++ [e.ch]) (resolve (ucs ++ [e.ch]))
          (by unfold timeleft at he; omega)
      · have he2 : ¬ e.time ≤ clock + (escDelay - (clock - esctime)) := by
          unfold timeleft at he; exact he
        simp only [escLoop, hk, if_true, timeleft, he2, if_false]
        omega
    · simp only [escLoop, hk, if_false]
      exact h2

/-- C5: once `inkey` holds a bare Escape keystroke, the esc-delay loop
starting at clock `esctime` re-attempts resolution only while bytes
arrive within `esc_delay`: when no pending byte arrives by
`esctime + esc_delay`, the loop returns the bare Escape keystroke
unchanged, consuming nothing, with the clock at exactly
`esctime + esc_delay`; and for every pending-byte pattern the loop never
advances the clock past `esctime + esc_delay`. -/
theorem inkey_escape_disambiguation (resolve : List Char → Keystroke)
    (keyEscape : Int) (escDelay esctime : Nat) (events : List InputEvent)
    (ucs : List Char) (ks : Keystroke)
    (hks : ks.code = some keyEscape)
    (hlate : ∀ e ∈ events, esctime + escDelay < e.time) :
    escLoop resolve keyEscape escDelay esctime events esctime ucs ks
      = (ks, esctime + escDelay, events)
    ∧ ∀ (pending : List InputEvent) (text : List Char) (start : Keystroke),
        (escLoop resolve keyEscape escDelay esctime pending esctime text start).2.1
          ≤ esctime + escDelay := by
  constructor
  · have htl : timeleft esctime escDelay esctime = escDelay := by
      simp [timeleft]
    cases events with
    | nil =>
      simp only [escLoop, hks, if_true, htl]
    | cons e rest =>
      have hlt := hlate e (by simp)
      have he : ¬ e.time ≤ esctime + escDelay := by omega
      simp only [escLoop, hks, if_true, htl, he, if_false]
  · intro pending text start
    exact escLoop_clock_bound resolve keyEscape escDelay esctime pending
      esctime text start (Nat.le_add_right _ _)

/-- Witness for C5 at a concrete input: a bare Escape (code 361) already
resolved, no pending bytes, esc_delay 35 starting at clock 0. -/
theorem inkey_escape_disambiguation_witness :
    ((⟨['\x1b'], some 361⟩ : Keystroke).code = some 361
      ∧ ∀ e ∈ ([] : List InputEvent), 0 + 35 < e.time)
    ∧ (escLoop (fun t => ⟨t, some 361⟩) 361 35 0 [] 0 ['\x1b'] ⟨['\x1b'], some 361⟩
        = (⟨['\x1b'], some 361⟩, 0 + 35, [])
      ∧ ∀ (pending : List InputEvent) (text : List Char) (start : Keystroke),
          (escLoop (fun t => ⟨t, some 361⟩) 361 35 0 pending 0 text start).2.1
            ≤ 0 + 35) :=
  ⟨⟨rfl, by simp⟩,
    inkey_escape_disambiguation (fun t => ⟨t, some 361⟩) 361 35 0 []
      ['\x1b'] ⟨['\x1b'], some 361⟩ rfl (by simp)⟩

end Blessed
